import Mathlib

/-!
Verification development for the apofasi/socks SOCKS5 proxy server.

The definitions below are a shallow embedding of the TypeScript sources:
  * src/constants.ts   — protocol constants
  * src/binary.ts      — BinaryReader and the wire decoders
  * src/server.ts      — the per-connection session driver of SocksServer

Node `Buffer` values are modelled as `List Nat` (one entry per byte).
Node buffer reads that throw `RangeError` on out-of-range offsets
(`readUInt8`, `readUInt16BE`, `readUInt32BE`) are modelled in `Except`,
with `Except.error` standing for the thrown exception; `Buffer.subarray`
clamps and never throws, exactly as in Node.
-/

namespace Socks

abbrev Buffer := List Nat

/-- constants.ts: RFC_1928_VERSION. -/
def RFC_1928_VERSION : Nat := 5

/-- constants.ts: RFC_1929_VERSION (username/password subnegotiation version). -/
def RFC_1929_VERSION : Nat := 1

/-- constants.ts: RFC_1928_ATYP.IPV4. -/
def ATYP_IPV4 : Nat := 1

/-- constants.ts: RFC_1928_ATYP.DOMAINNAME. -/
def ATYP_DOMAINNAME : Nat := 3

/-- constants.ts: RFC_1928_ATYP.IPV6. -/
def ATYP_IPV6 : Nat := 4

/-- constants.ts: RFC_1928_COMMANDS.CONNECT. -/
def CMD_CONNECT : Nat := 1

/-- constants.ts: RFC_1928_REPLIES.GENERAL_FAILURE. -/
def GENERAL_FAILURE : Nat := 1

/-- constants.ts: RFC_1928_REPLIES.ADDRESS_TYPE_NOT_SUPPORTED. -/
def ADDRESS_TYPE_NOT_SUPPORTED : Nat := 8

/-- constants.ts: RFC_1928_METHODS.BASIC_AUTHENTICATION. -/
def BASIC_AUTHENTICATION : Nat := 2

/-- constants.ts: RFC_1928_METHODS.NO_AUTHENTICATION_REQUIRED. -/
def NO_AUTHENTICATION_REQUIRED : Nat := 0

/-- constants.ts: RFC_1928_METHODS.NO_ACCEPTABLE_METHODS. -/
def NO_ACCEPTABLE_METHODS : Nat := 255

/-- constants.ts: RFC_1929_REPLIES.GENERAL_FAILURE (= 0xFF). -/
def RFC_1929_GENERAL_FAILURE : Nat := 255

/-- constants.ts: RFC_1929_REPLIES.SUCCEEDED. -/
def RFC_1929_SUCCEEDED : Nat := 0

/-- Node Buffer.readUInt8: returns the byte at pos, or throws RangeError
when pos is past the end of the buffer. -/
def readUInt8 (buf : Buffer) (pos : Nat) : Except String Nat :=
  match buf.get? pos with
  | some v => Except.ok v
  | none => Except.error "RangeError"

/-- Node Buffer.readUInt16BE: big-endian 16-bit read, throws RangeError
when fewer than two bytes remain at pos. -/
def readUInt16BE (buf : Buffer) (pos : Nat) : Except String Nat :=
  match buf.get? pos, buf.get? (pos + 1) with
  | some a, some b => Except.ok (a * 256 + b)
  | _, _ => Except.error "RangeError"

/-- Node Buffer.readUInt32BE: big-endian 32-bit read, throws RangeError
when fewer than four bytes remain at pos. -/
def readUInt32BE (buf : Buffer) (pos : Nat) : Except String Nat :=
  match buf.get? pos, buf.get? (pos + 1), buf.get? (pos + 2), buf.get? (pos + 3) with
  | some a, some b, some c, some d =>
      Except.ok (((a * 256 + b) * 256 + c) * 256 + d)
  | _, _, _, _ => Except.error "RangeError"

/-- Node Buffer.subarray(s, e): clamping slice, never throws. -/
def subarray (buf : Buffer) (s e : Nat) : Buffer :=
  (buf.drop s).take (e - s)

/-- Buffer.toString() on byte content (the sources only ever feed ASCII
credentials and host names through it; modelled byte-for-byte). -/
def bytesToString (bs : Buffer) : String :=
  String.mk (bs.map Char.ofNat)

/-- binary.ts parseAuthRequest result shape. -/
structure AuthRequest where
  ver : Nat
  ulen : Nat
  uname : Buffer
  plen : Nat
  passwd : Buffer
  requestBuffer : Buffer
deriving DecidableEq

/-- binary.ts parseAuthRequest: BinaryReader word8 (ver), word8 (ulen),
readBuffer ulen (uname), word8 (plen), readBuffer plen (passwd).
The reader position after each field is the explicit offset used below;
word8 reads use readUInt8 and therefore throw past the end. -/
def parseAuthRequest (buffer : Buffer) : Except String AuthRequest := do
  let ver ← readUInt8 buffer 0
  let ulen ← readUInt8 buffer 1
  let uname := subarray buffer 2 (2 + ulen)
  let plen ← readUInt8 buffer (2 + ulen)
  let passwd := subarray buffer (2 + ulen + 1) (2 + ulen + 1 + plen)
  Except.ok { ver := ver, ulen := ulen, uname := uname, plen := plen,
              passwd := passwd, requestBuffer := buffer }

/-- binary.ts parseConnectRequest result shape. -/
structure ConnectRequest where
  ver : Nat
  cmd : Nat
  rsv : Nat
  atyp : Nat
  requestBuffer : Buffer
  remaining : Buffer
deriving DecidableEq

/-- binary.ts parseConnectRequest: four word8 reads (ver, cmd, rsv, atyp)
followed by the remaining bytes after position 4. -/
def parseConnectRequest (buffer : Buffer) : Except String ConnectRequest := do
  let ver ← readUInt8 buffer 0
  let cmd ← readUInt8 buffer 1
  let rsv ← readUInt8 buffer 2
  let atyp ← readUInt8 buffer 3
  Except.ok { ver := ver, cmd := cmd, rsv := rsv, atyp := atyp,
              requestBuffer := buffer, remaining := buffer.drop 4 }

/-- binary.ts parseIPv4Address: Array.from(buffer).join(".") with decimal
rendering of each byte. -/
def parseIPv4Address (buffer : Buffer) : String :=
  String.intercalate "." (buffer.map (fun b => toString b))

/-- Lowercase hexadecimal rendering used by parseIPv6Address
(JS Number.prototype.toString(16)). -/
def hexString (n : Nat) : String :=
  String.mk (Nat.toDigits 16 n)

/-- binary.ts parseIPv6Address: four big-endian 32-bit reads, each split
into the high and low 16-bit halves, hex-rendered and colon-joined.
The word32be reads throw when the buffer holds fewer than 16 bytes. -/
def parseIPv6Address (buffer : Buffer) : Except String String := do
  let a ← readUInt32BE buffer 0
  let b ← readUInt32BE buffer 4
  let c ← readUInt32BE buffer 8
  let d ← readUInt32BE buffer 12
  let parts := [a, b, c, d].foldr
    (fun v acc => hexString (v / 65536) :: hexString (v % 65536) :: acc) []
  Except.ok (String.intercalate ":" parts)

/-- binary.ts parseDomainName: one word8 length (throws on an empty
buffer) followed by that many bytes decoded to a string. -/
def parseDomainName (buffer : Buffer) : Except String (Nat × String) := do
  let size ← readUInt8 buffer 0
  Except.ok (size, bytesToString (subarray buffer 1 (1 + size)))

/-- server.ts SocksServerOptions. The callbacks follow the source's
invoke-with-optional-error discipline, modelled as boolean deciders:
`true` means the callback was invoked with no error (accept),
`false` means it was invoked with an error (reject). The socketFactory
field is the effective outbound factory (the user-supplied one, or the
default TCP factory); its result is the environment-determined outcome
of the connection attempt, `Except.error code` carrying err.code. -/
structure Options where
  authenticate : Option (String → String → Bool)
  connectionFilter : Option ((String × Nat) → (String × Nat) → Bool)
  socketFactory : String → Nat → Except String Unit

/-- The per-connection phase of the session driver: which once("data")
handler (if any) is armed next. `stalled` models a connection on which
the handler returned (or threw) without arming another read and without
ending the socket. -/
inductive Phase where
  | greeting
  | awaitingAuth
  | awaitingRequest
  | relaying
  | stalled
  | closed
deriving DecidableEq

/-- server.ts EVENTS: the names the server can emit. server.ts only ever
emits authentication, authenticateError and proxyError; the other
constructors mirror the EVENTS constant. -/
inductive Event where
  | handshake
  | authentication (uname : String)
  | authenticationError (uname : String)
  | connectionFilterEv
  | proxyConnect
  | proxyData
  | proxyDisconnect
  | proxyEnd
  | proxyError
deriving DecidableEq

/-- Observable effects of handling one data event: SOCKS frames written
to the client in order, events emitted on the server, outbound factory
invocations, whether the socket was pushed onto activeSessions, whether
socket.end() was called, and whether an exception escaped the handler. -/
structure Out where
  writes : List Buffer
  events : List Event
  factoryCalls : List (String × Nat)
  pushed : Bool
  endedSocket : Bool
  escaped : Bool
deriving DecidableEq

/-- No observable effect. -/
def Out.empty : Out :=
  { writes := [], events := [], factoryCalls := [],
    pushed := false, endedSocket := false, escaped := false }

/-- server.ts function end(code): writes the two bytes
[RFC_1928_VERSION, code] and ends the socket. -/
def endOut (code : Nat) : Out :=
  { Out.empty with writes := [[RFC_1928_VERSION, code]], endedSocket := true }

/-- A two-byte method reply [RFC_1928_VERSION, method] written before
arming the next read. -/
def methodOut (method : Nat) : Out :=
  { Out.empty with writes := [[RFC_1928_VERSION, method]] }

/-- server.ts handshake handler, method-selection part (the branch chain
after the version/length check): reject BASIC_AUTHENTICATION offers when
no authenticate callback is configured; select BASIC_AUTHENTICATION when
configured and offered; select NO_AUTHENTICATION_REQUIRED when no
callback is configured and it is offered; otherwise
end(NO_ACCEPTABLE_METHODS). -/
def methodSelection (opts : Options) (methods : List Nat) : Phase × Out :=
  match opts.authenticate with
  | none =>
    if BASIC_AUTHENTICATION ∈ methods then
      (.closed, endOut GENERAL_FAILURE)
    else if NO_AUTHENTICATION_REQUIRED ∈ methods then
      (.awaitingRequest, methodOut NO_AUTHENTICATION_REQUIRED)
    else
      (.closed, endOut NO_ACCEPTABLE_METHODS)
  | some _ =>
    if BASIC_AUTHENTICATION ∈ methods then
      (.awaitingAuth, methodOut BASIC_AUTHENTICATION)
    else
      (.closed, endOut NO_ACCEPTABLE_METHODS)

/-- server.ts first once("data") handler: the greeting. JS check
`buffer[0] !== RFC_1928_VERSION || buffer[1] !== buffer.length - 2`
(out-of-range indexing yields undefined, which never equals a number),
then method selection over `methods = slice(buffer, 2)`. -/
def handshakeStep (opts : Options) (buffer : Buffer) : Phase × Out :=
  if buffer.get? 0 = some RFC_1928_VERSION ∧
      buffer.get? 1 = some (buffer.length - 2) then
    methodSelection opts (buffer.drop 2)
  else
    (.closed, endOut GENERAL_FAILURE)

/-- server.ts function authenticate(buffer): parseAuthRequest (whose
word8 reads may throw, escaping the handler), version check ending with
RFC_1929_REPLIES.GENERAL_FAILURE (0xFF) on mismatch, then the
authenticate callback; rejection emits authenticateError and ends with
0xFF, acceptance emits authentication, writes
[RFC_1929_VERSION, SUCCEEDED] and arms the connect handler. When no
callback is configured the handler silently returns (no reply, no next
read armed). -/
def authStep (opts : Options) (buffer : Buffer) : Phase × Out :=
  match parseAuthRequest buffer with
  | .error _ => (.stalled, { Out.empty with escaped := true })
  | .ok request =>
    if request.ver ≠ RFC_1929_VERSION then
      (.closed, endOut RFC_1929_GENERAL_FAILURE)
    else
      match opts.authenticate with
      | none => (.stalled, Out.empty)
      | some auth =>
        if auth (bytesToString request.uname) (bytesToString request.passwd) then
          (.awaitingRequest,
            { Out.empty with
                writes := [[RFC_1929_VERSION, RFC_1929_SUCCEEDED]],
                events := [Event.authentication (bytesToString request.uname)] })
        else
          (.closed,
            { endOut RFC_1929_GENERAL_FAILURE with
                events := [Event.authenticationError (bytesToString request.uname)] })

/-- server.ts connect handler, outbound part (after the dst extraction):
invoke the socket factory; on resolution write the success reply
(requestBuffer with bytes 0..2 overwritten to [ver, SUCCEEDED, 0]) and
start piping; on rejection end(GENERAL_FAILURE) and emit proxyError.
The dst argument carries the outcome of the address/port extraction,
whose buffer reads may throw and escape the handler. -/
def connectOutbound (opts : Options) (buffer : Buffer)
    (dst : Except String (String × Nat)) : Phase × Out :=
  match dst with
  | .error _ => (.stalled, { Out.empty with escaped := true })
  | .ok (addr, port) =>
    match opts.socketFactory addr port with
    | .ok _ =>
      (.relaying,
        { Out.empty with
            factoryCalls := [(addr, port)],
            writes := [[RFC_1928_VERSION, 0, 0] ++ buffer.drop 3] })
    | .error _ =>
      (.closed,
        { endOut GENERAL_FAILURE with
            factoryCalls := [(addr, port)],
            events := [Event.proxyError] })

/-- server.ts connect handler, after the activeSessions push: the atyp
branch chain extracting dst.addr and dst.port from request.remaining
(ipv4 / domain name / ipv6, else end(ADDRESS_TYPE_NOT_SUPPORTED)),
followed by the outbound connection. Note the request cmd byte is never
consulted. -/
def connectAfterPush (opts : Options) (buffer : Buffer)
    (request : ConnectRequest) : Phase × Out :=
  if request.atyp = ATYP_IPV4 then
    connectOutbound opts buffer (do
      let port ← readUInt16BE request.remaining 4
      Except.ok (parseIPv4Address (subarray request.remaining 0 4), port))
  else if request.atyp = ATYP_DOMAINNAME then
    connectOutbound opts buffer (do
      let domain ← parseDomainName request.remaining
      let port ← readUInt16BE request.remaining (domain.1 + 1)
      Except.ok (domain.2, port))
  else if request.atyp = ATYP_IPV6 then
    connectOutbound opts buffer (do
      let addr ← parseIPv6Address (subarray request.remaining 0 16)
      let port ← readUInt16BE request.remaining 16
      Except.ok (addr, port))
  else
    (.closed, endOut ADDRESS_TYPE_NOT_SUPPORTED)

/-- server.ts function connect(buffer): parseConnectRequest (may throw),
version check ending with GENERAL_FAILURE, then
activeSessions.push(socket) followed by the rest of the handler. -/
def connectStep (opts : Options) (buffer : Buffer) : Phase × Out :=
  match parseConnectRequest buffer with
  | .error _ => (.stalled, { Out.empty with escaped := true })
  | .ok request =>
    if request.ver ≠ RFC_1928_VERSION then
      (.closed, endOut GENERAL_FAILURE)
    else
      let r := connectAfterPush opts buffer request
      (r.1, { r.2 with pushed := true })

/-- One data event in a given phase. In relaying the SOCKS driver no
longer parses or writes frames (bytes are piped); in stalled and closed
no read handler is armed, so incoming data has no observable SOCKS
effect. -/
def stepFn (opts : Options) (p : Phase) (buffer : Buffer) : Phase × Out :=
  match p with
  | .greeting => handshakeStep opts buffer
  | .awaitingAuth => authStep opts buffer
  | .awaitingRequest => connectStep opts buffer
  | .relaying => (.relaying, Out.empty)
  | .stalled => (.stalled, Out.empty)
  | .closed => (.closed, Out.empty)

/-- Drive a session over a list of client data events, recording for
each the phase it was handled in and its observable effects. -/
def runTrace (opts : Options) : Phase → List Buffer → List (Phase × Out)
  | _, [] => []
  | p, b :: rest =>
    let r := stepFn opts p b
    (p, r.2) :: runTrace opts r.1 rest

/-- The frames written to the client over a whole trace, in order. -/
def traceWrites : List (Phase × Out) → List Buffer
  | [] => []
  | r :: tr => r.2.writes ++ traceWrites tr

/-- The frames written to the client by steps handled in phase q. -/
def writesAt (q : Phase) : List (Phase × Out) → List Buffer
  | [] => []
  | r :: tr => (if r.1 = q then r.2.writes else []) ++ writesAt q tr

/-- The events emitted over a whole trace, in order. -/
def traceEvents : List (Phase × Out) → List Event
  | [] => []
  | r :: tr => r.2.events ++ traceEvents tr

/-- Drive a session while maintaining the server's activeSessions
registry (a list of socket identities): server.ts pushes the session's
socket inside connect after the version check, and contains no code
that removes entries. -/
def runRegistry (opts : Options) (sid : Nat) :
    Phase → List Nat → List Buffer → List Nat
  | _, reg, [] => reg
  | p, reg, b :: rest =>
    let r := stepFn opts p b
    runRegistry opts sid r.1 (if r.2.pushed then reg ++ [sid] else reg) rest

/-- An action performed by SocksServer.close on a registered socket. -/
inductive SocketAction where
  | endSocket (sid : Nat)
deriving DecidableEq

/-- server.ts SocksServer.close: activeSessions.forEach(session =>
session.end()) — one end() per registry entry, in registry order. -/
def closeActions (activeSessions : List Nat) : List SocketAction :=
  activeSessions.map SocketAction.endSocket

/-- Rank of a phase in the session's forward progression; the three
terminal phases (relaying, stalled, closed) share the top rank. -/
def phaseRank : Phase → Nat
  | .greeting => 0
  | .awaitingAuth => 1
  | .awaitingRequest => 2
  | .relaying => 3
  | .stalled => 3
  | .closed => 3

/-- A server configured with no callbacks whose outbound connection
attempts all succeed. -/
def optsNoAuth : Options :=
  { authenticate := none, connectionFilter := none,
    socketFactory := fun _ _ => Except.ok () }

/-- A server with no callbacks whose outbound connection attempts are
refused by the destination (err.code ECONNREFUSED, as for a CONNECT to
a closed port). -/
def optsRefused : Options :=
  { authenticate := none, connectionFilter := none,
    socketFactory := fun _ _ => Except.error "ECONNREFUSED" }

/-- A server whose authenticate callback rejects every credential pair
and whose outbound attempts succeed. -/
def optsAuthReject : Options :=
  { authenticate := some (fun _ _ => false), connectionFilter := none,
    socketFactory := fun _ _ => Except.ok () }

/-- A server whose authenticate callback accepts every credential pair
and whose outbound attempts succeed. -/
def optsAuthAccept : Options :=
  { authenticate := some (fun _ _ => true), connectionFilter := none,
    socketFactory := fun _ _ => Except.ok () }

/-- A server configured with a connection filter that rejects every
destination, and whose outbound attempts succeed. -/
def optsFilterReject : Options :=
  { authenticate := none, connectionFilter := some (fun _ _ => false),
    socketFactory := fun _ _ => Except.ok () }

/- Helper lemmas about the step function and the session trace. -/

theorem methodSelection_writes_length (opts : Options) (ms : List Nat) :
    ((methodSelection opts ms).2.writes).length = 1 := by
  unfold methodSelection
  rcases opts.authenticate <;> dsimp <;> split <;>
    first
      | rfl
      | (split <;> rfl)

theorem handshakeStep_writes_length (opts : Options) (buf : Buffer) :
    ((handshakeStep opts buf).2.writes).length = 1 := by
  unfold handshakeStep
  split
  · exact methodSelection_writes_length opts (buf.drop 2)
  · rfl

theorem authStep_writes_le (opts : Options) (buf : Buffer) :
    ((authStep opts buf).2.writes).length ≤ 1 := by
  unfold authStep
  rcases parseAuthRequest buf with e | request
  · simp [Out.empty]
  · dsimp
    split
    · simp [endOut, Out.empty]
    · rcases opts.authenticate with _ | auth
      · simp [Out.empty]
      · dsimp
        split <;> simp [endOut, Out.empty]

theorem connectOutbound_writes_le (opts : Options) (buf : Buffer)
    (dst : Except String (String × Nat)) :
    ((connectOutbound opts buf dst).2.writes).length ≤ 1 := by
  unfold connectOutbound
  rcases dst with e | ⟨addr, port⟩
  · simp [Out.empty]
  · dsimp
    rcases opts.socketFactory addr port with e | u <;> simp [endOut, Out.empty]

theorem connectAfterPush_writes_le (opts : Options) (buf : Buffer)
    (request : ConnectRequest) :
    ((connectAfterPush opts buf request).2.writes).length ≤ 1 := by
  unfold connectAfterPush
  split
  · exact connectOutbound_writes_le _ _ _
  · split
    · exact connectOutbound_writes_le _ _ _
    · split
      · exact connectOutbound_writes_le _ _ _
      · simp [endOut, Out.empty]

theorem connectStep_writes_le (opts : Options) (buf : Buffer) :
    ((connectStep opts buf).2.writes).length ≤ 1 := by
  unfold connectStep
  rcases parseConnectRequest buf with e | request
  · simp [Out.empty]
  · dsimp
    split
    · simp [endOut, Out.empty]
    · exact connectAfterPush_writes_le _ _ _

theorem stepFn_writes_le (opts : Options) (p : Phase) (buf : Buffer) :
    ((stepFn opts p buf).2.writes).length ≤ 1 := by
  cases p
  case greeting => exact le_of_eq (handshakeStep_writes_length opts buf)
  case awaitingAuth => exact authStep_writes_le opts buf
  case awaitingRequest => exact connectStep_writes_le opts buf
  all_goals simp [stepFn, Out.empty]

theorem handshakeStep_phase (opts : Options) (buf : Buffer) :
    1 ≤ phaseRank (handshakeStep opts buf).1 := by
  unfold handshakeStep methodSelection
  split
  · rcases opts.authenticate <;> dsimp <;> (repeat' split) <;> simp [phaseRank]
  · simp [phaseRank]

theorem authStep_phase (opts : Options) (buf : Buffer) :
    2 ≤ phaseRank (authStep opts buf).1 := by
  unfold authStep
  rcases parseAuthRequest buf with e | request
  · simp [phaseRank]
  · dsimp
    split
    · simp [phaseRank]
    · rcases opts.authenticate with _ | auth
      · simp [phaseRank]
      · dsimp
        split <;> simp [phaseRank]

theorem connectOutbound_phase (opts : Options) (buf : Buffer)
    (dst : Except String (String × Nat)) :
    3 ≤ phaseRank (connectOutbound opts buf dst).1 := by
  unfold connectOutbound
  rcases dst with e | ⟨addr, port⟩
  · simp [phaseRank]
  · dsimp
    rcases opts.socketFactory addr port with e | u <;> simp [phaseRank]

theorem connectStep_phase (opts : Options) (buf : Buffer) :
    3 ≤ phaseRank (connectStep opts buf).1 := by
  unfold connectStep
  rcases parseConnectRequest buf with e | request
  · simp [phaseRank]
  · dsimp
    split
    · simp [phaseRank]
    · dsimp
      have h : 3 ≤ phaseRank (connectAfterPush opts buf request).1 := by
        unfold connectAfterPush
        split
        · exact connectOutbound_phase _ _ _
        · split
          · exact connectOutbound_phase _ _ _
          · split
            · exact connectOutbound_phase _ _ _
            · simp [phaseRank]
      exact h

theorem rank_lt_stepFn (opts : Options) (p : Phase) (buf : Buffer)
    (h : phaseRank p < 3) :
    phaseRank p < phaseRank (stepFn opts p buf).1 := by
  cases p
  case greeting => exact lt_of_lt_of_le Nat.zero_lt_one (handshakeStep_phase opts buf)
  case awaitingAuth => exact lt_of_lt_of_le Nat.one_lt_two (authStep_phase opts buf)
  case awaitingRequest =>
    exact lt_of_lt_of_le (by decide) (connectStep_phase opts buf)
  all_goals simp [phaseRank] at h

theorem stepFn_terminal (opts : Options) (p : Phase) (buf : Buffer)
    (h : phaseRank p = 3) : stepFn opts p buf = (p, Out.empty) := by
  cases p <;> first | rfl | simp [phaseRank] at h

theorem rank_le_stepFn (opts : Options) (p : Phase) (buf : Buffer) :
    phaseRank p ≤ phaseRank (stepFn opts p buf).1 := by
  by_cases h : phaseRank p < 3
  · exact le_of_lt (rank_lt_stepFn opts p buf h)
  · have h3 : phaseRank p = 3 := by
      cases p <;> simp [phaseRank] at h ⊢
    rw [stepFn_terminal opts p buf h3]

theorem writesAt_nil_of_rank_lt (opts : Options) :
    ∀ (frames : List Buffer) (p q : Phase), phaseRank q < phaseRank p →
      writesAt q (runTrace opts p frames) = [] := by
  intro frames
  induction frames with
  | nil => intro p q _; rfl
  | cons b rest ih =>
    intro p q hq
    have hne : p ≠ q := by
      intro h; rw [h] at hq; exact lt_irrefl _ hq
    have hle : phaseRank q < phaseRank (stepFn opts p b).1 :=
      lt_of_lt_of_le hq (rank_le_stepFn opts p b)
    simp only [runTrace, writesAt, if_neg hne, List.nil_append]
    exact ih (stepFn opts p b).1 q hle

theorem writesAt_le_one (opts : Options) :
    ∀ (frames : List Buffer) (p q : Phase), phaseRank q < 3 →
      (writesAt q (runTrace opts p frames)).length ≤ 1 := by
  intro frames
  induction frames with
  | nil => intro p q _; simp [runTrace, writesAt]
  | cons b rest ih =>
    intro p q hq
    by_cases hpq : p = q
    · subst hpq
      have htail : writesAt p (runTrace opts (stepFn opts p b).1 rest) = [] :=
        writesAt_nil_of_rank_lt opts rest (stepFn opts p b).1 p
          (rank_lt_stepFn opts p b hq)
      simp only [runTrace, writesAt, if_pos, htail, List.append_nil]
      exact stepFn_writes_le opts p b
    · simp only [runTrace, writesAt, if_neg hpq, List.nil_append]
      exact ih (stepFn opts p b).1 q hq

theorem writesAt_greeting_length (opts : Options) (frames : List Buffer)
    (h : frames ≠ []) :
    (writesAt .greeting (runTrace opts .greeting frames)).length = 1 := by
  rcases frames with _ | ⟨b, rest⟩
  · exact absurd rfl h
  · have htail :
        writesAt .greeting (runTrace opts (stepFn opts .greeting b).1 rest) = [] :=
      writesAt_nil_of_rank_lt opts rest (stepFn opts .greeting b).1 .greeting
        (rank_lt_stepFn opts .greeting b (by decide))
    simp only [runTrace, writesAt, if_pos, htail, List.append_nil]
    exact handshakeStep_writes_length opts b

theorem traceWrites_partition (opts : Options) :
    ∀ (frames : List Buffer) (p : Phase),
      traceWrites (runTrace opts p frames) =
        writesAt .greeting (runTrace opts p frames) ++
        writesAt .awaitingAuth (runTrace opts p frames) ++
        writesAt .awaitingRequest (runTrace opts p frames) := by
  intro frames
  induction frames with
  | nil => intro p; rfl
  | cons b rest ih =>
    intro p
    have ihp := ih (stepFn opts p b).1
    cases p
    case greeting =>
      simp [runTrace, traceWrites, writesAt, ihp, List.append_assoc]
    case awaitingAuth =>
      have hg : writesAt Phase.greeting
          (runTrace opts (stepFn opts .awaitingAuth b).1 rest) = [] :=
        writesAt_nil_of_rank_lt opts rest _ _
          (lt_of_lt_of_le (by decide) (authStep_phase opts b))
      simp [runTrace, traceWrites, writesAt, ihp, hg, List.append_assoc]
    case awaitingRequest =>
      have hg : writesAt Phase.greeting
          (runTrace opts (stepFn opts .awaitingRequest b).1 rest) = [] :=
        writesAt_nil_of_rank_lt opts rest _ _
          (lt_of_lt_of_le (by decide) (connectStep_phase opts b))
      have ha : writesAt Phase.awaitingAuth
          (runTrace opts (stepFn opts .awaitingRequest b).1 rest) = [] :=
        writesAt_nil_of_rank_lt opts rest _ _
          (lt_of_lt_of_le (by decide) (connectStep_phase opts b))
      simp [runTrace, traceWrites, writesAt, ihp, hg, ha]
    case relaying =>
      simpa [runTrace, traceWrites, writesAt, stepFn, Out.empty]
        using ih Phase.relaying
    case stalled =>
      simpa [runTrace, traceWrites, writesAt, stepFn, Out.empty]
        using ih Phase.stalled
    case closed =>
      simpa [runTrace, traceWrites, writesAt, stepFn, Out.empty]
        using ih Phase.closed

theorem mem_trace_writes_le (opts : Options) :
    ∀ (frames : List Buffer) (p : Phase) (r : Phase × Out),
      r ∈ runTrace opts p frames → (r.2.writes).length ≤ 1 := by
  intro frames
  induction frames with
  | nil => intro p r hr; simp [runTrace] at hr
  | cons b rest ih =>
    intro p r hr
    simp only [runTrace, List.mem_cons] at hr
    rcases hr with hr | hr
    · rw [hr]; exact stepFn_writes_le opts p b
    · exact ih (stepFn opts p b).1 r hr

theorem methodSelection_pushed (opts : Options) (ms : List Nat) :
    (methodSelection opts ms).2.pushed = false := by
  unfold methodSelection
  rcases opts.authenticate <;> dsimp <;> (repeat' split) <;>
    simp [endOut, methodOut, Out.empty]

theorem handshakeStep_pushed (opts : Options) (buf : Buffer) :
    (handshakeStep opts buf).2.pushed = false := by
  unfold handshakeStep
  split
  · exact methodSelection_pushed opts (buf.drop 2)
  · simp [endOut, Out.empty]

theorem authStep_pushed (opts : Options) (buf : Buffer) :
    (authStep opts buf).2.pushed = false := by
  unfold authStep
  rcases parseAuthRequest buf with e | request
  · simp [Out.empty]
  · dsimp
    split
    · simp [endOut, Out.empty]
    · rcases opts.authenticate with _ | auth
      · simp [Out.empty]
      · dsimp
        split <;> simp [endOut, Out.empty]

theorem stepFn_pushed_iff (opts : Options) (p : Phase) (buf : Buffer) :
    (stepFn opts p buf).2.pushed = true ↔
      p = Phase.awaitingRequest ∧
        ∃ request, parseConnectRequest buf = Except.ok request ∧
          request.ver = RFC_1928_VERSION := by
  cases p
  case greeting =>
    simp [stepFn, handshakeStep_pushed]
  case awaitingAuth =>
    simp [stepFn, authStep_pushed]
  case awaitingRequest =>
    simp only [stepFn, connectStep]
    rcases h : parseConnectRequest buf with e | request
    · constructor
      · intro hc; simp [Out.empty] at hc
      · rintro ⟨-, request2, hr2, -⟩; cases hr2
    · dsimp
      split
      case isTrue hv =>
        constructor
        · intro hc; simp [endOut, Out.empty] at hc
        · rintro ⟨-, request2, hr2, hv2⟩
          injection hr2 with hr2
          subst hr2
          exact absurd hv2 hv
      case isFalse hv =>
        constructor
        · intro _
          exact ⟨trivial, request, rfl, not_not.mp hv⟩
        · intro _; rfl
  all_goals simp [stepFn, Out.empty]

theorem runRegistry_extends (opts : Options) (sid : Nat) :
    ∀ (frames : List Buffer) (p : Phase) (reg : List Nat),
      ∃ t, runRegistry opts sid p reg frames = reg ++ t := by
  intro frames
  induction frames with
  | nil => intro p reg; exact ⟨[], (List.append_nil reg).symm⟩
  | cons b rest ih =>
    intro p reg
    by_cases hp : (stepFn opts p b).2.pushed = true
    · obtain ⟨t, ht⟩ := ih (stepFn opts p b).1 (reg ++ [sid])
      refine ⟨[sid] ++ t, ?_⟩
      simp only [runRegistry, if_pos hp, ht, List.append_assoc]
    · obtain ⟨t, ht⟩ := ih (stepFn opts p b).1 reg
      refine ⟨t, ?_⟩
      simp only [runRegistry, if_neg hp, ht]

/-- Claim C1 (refuted on the code; the claim is the spec's mandated
behaviour). A well-formed ConnectRequest with cmd = BIND (0x02) parses
with cmd = 2, yet the session invokes the outbound factory, writes a
SUCCEEDED reply echoing the request, and enters relaying; no write
carries COMMAND_NOT_SUPPORTED (0x07) in the reply-code byte, and the
connection is not closed. server.ts never consults the cmd field. -/
theorem bind_request_invokes_factory_and_succeeds :
    parseConnectRequest [5, 2, 0, 1, 127, 0, 0, 1, 0, 80] =
      Except.ok { ver := 5, cmd := 2, rsv := 0, atyp := 1,
                  requestBuffer := [5, 2, 0, 1, 127, 0, 0, 1, 0, 80],
                  remaining := [127, 0, 0, 1, 0, 80] }
  ∧ (stepFn optsNoAuth .awaitingRequest [5, 2, 0, 1, 127, 0, 0, 1, 0, 80]).2.factoryCalls =
      [("127.0.0.1", 80)]
  ∧ (stepFn optsNoAuth .awaitingRequest [5, 2, 0, 1, 127, 0, 0, 1, 0, 80]).2.writes =
      [[5, 0, 0, 1, 127, 0, 0, 1, 0, 80]]
  ∧ (stepFn optsNoAuth .awaitingRequest [5, 2, 0, 1, 127, 0, 0, 1, 0, 80]).1 = Phase.relaying
  ∧ ∀ w ∈ (stepFn optsNoAuth .awaitingRequest [5, 2, 0, 1, 127, 0, 0, 1, 0, 80]).2.writes,
      w.get? 1 ≠ some 7 := by
  refine ⟨rfl, by decide, by decide, by decide, by decide⟩

/-- Claim C2 (refuted on the code; the claim is the spec's mandated
mapping). When the outbound factory fails with err.code ECONNREFUSED
(a CONNECT to a closed port), the session writes GENERAL_FAILURE
[5, 1] — not CONNECTION_REFUSED [5, 5] — and closes. server.ts maps
every factory failure to GENERAL_FAILURE, ignoring the diagnostic. -/
theorem closed_port_reply_general_failure :
    (stepFn optsRefused .awaitingRequest [5, 1, 0, 1, 127, 0, 0, 1, 0, 1]).2.writes = [[5, 1]]
  ∧ (stepFn optsRefused .awaitingRequest [5, 1, 0, 1, 127, 0, 0, 1, 0, 1]).1 = Phase.closed
  ∧ (stepFn optsRefused .awaitingRequest [5, 1, 0, 1, 127, 0, 0, 1, 0, 1]).2.endedSocket = true
  ∧ (stepFn optsRefused .awaitingRequest [5, 1, 0, 1, 127, 0, 0, 1, 0, 1]).2.writes ≠
      [[5, 5]] := by decide

/-- Claim C3 (refuted on the code; the claim matches the documented
contract). The session step is entirely independent of the configured
connectionFilter, and with a filter that rejects every destination a
parsed CONNECT request still reaches the outbound factory and is
answered SUCCEEDED; no CONNECTION_NOT_ALLOWED (0x02) reply is written.
server.ts declares the option but never invokes it. -/
theorem connection_filter_never_consulted :
    (∀ (opts : Options) (f : Option ((String × Nat) → (String × Nat) → Bool))
        (p : Phase) (buf : Buffer),
        stepFn { opts with connectionFilter := f } p buf = stepFn opts p buf)
  ∧ (stepFn optsFilterReject .awaitingRequest [5, 1, 0, 1, 127, 0, 0, 1, 0, 80]).2.factoryCalls =
      [("127.0.0.1", 80)]
  ∧ (stepFn optsFilterReject .awaitingRequest [5, 1, 0, 1, 127, 0, 0, 1, 0, 80]).2.writes =
      [[5, 0, 0, 1, 127, 0, 0, 1, 0, 80]]
  ∧ ∀ w ∈ (stepFn optsFilterReject .awaitingRequest [5, 1, 0, 1, 127, 0, 0, 1, 0, 80]).2.writes,
      w.get? 1 ≠ some 2 := by
  refine ⟨?_, by decide, by decide, by decide⟩
  intro opts f p buf
  cases opts
  cases p <;> rfl

/-- Claim C4 counterexample. For the well-formed greeting
[5, 2, 0, 2] (method set {NO_AUTH, USER_PASS}) on a server with no
authenticate callback, the claim requires the MethodReply to select
NO_AUTH (0x00); the code instead replies [5, 1] (GENERAL_FAILURE in the
method byte) and closes, because the guard rejecting USER_PASS offers
without a configured callback runs before NO_AUTH selection. -/
theorem no_auth_userpass_offer_counterexample :
    NO_AUTHENTICATION_REQUIRED ∈ ([5, 2, 0, 2] : Buffer).drop 2
  ∧ ([5, 2, 0, 2] : Buffer).get? 0 = some 5
  ∧ ([5, 2, 0, 2] : Buffer).get? 1 = some (([5, 2, 0, 2] : Buffer).length - 2)
  ∧ optsNoAuth.authenticate = none
  ∧ stepFn optsNoAuth .greeting [5, 2, 0, 2] = (Phase.closed, endOut GENERAL_FAILURE)
  ∧ (stepFn optsNoAuth .greeting [5, 2, 0, 2]).2.writes = [[5, 1]]
  ∧ (stepFn optsNoAuth .greeting [5, 2, 0, 2]).2.writes ≠ [[5, 0]]
  ∧ (stepFn optsNoAuth .greeting [5, 2, 0, 2]).2.writes ≠ [[5, 255]] := by
  refine ⟨by decide, by decide, by decide, rfl, rfl, by decide, by decide, by decide⟩

/-- Claim C4, amended. For every well-formed greeting: with an
authenticate callback configured the server selects USER_PASS when
offered, else replies 0xFF and closes; with no callback configured it
first rejects any greeting offering USER_PASS with GENERAL_FAILURE
(0x01) and closes, otherwise selects NO_AUTH when offered, else replies
0xFF and closes. Whenever the session proceeds without closing, the
selected method byte is 0x00 or 0x02 — GSSAPI is never selected. -/
theorem method_selection_amended (opts : Options) (buf : Buffer)
    (hwf : buf.get? 0 = some RFC_1928_VERSION ∧
      buf.get? 1 = some (buf.length - 2)) :
    (∀ f, opts.authenticate = some f →
        (BASIC_AUTHENTICATION ∈ buf.drop 2 →
          stepFn opts .greeting buf =
            (Phase.awaitingAuth, methodOut BASIC_AUTHENTICATION))
      ∧ (BASIC_AUTHENTICATION ∉ buf.drop 2 →
          stepFn opts .greeting buf =
            (Phase.closed, endOut NO_ACCEPTABLE_METHODS)))
  ∧ (opts.authenticate = none →
        (BASIC_AUTHENTICATION ∈ buf.drop 2 →
          stepFn opts .greeting buf = (Phase.closed, endOut GENERAL_FAILURE))
      ∧ (BASIC_AUTHENTICATION ∉ buf.drop 2 →
          NO_AUTHENTICATION_REQUIRED ∈ buf.drop 2 →
          stepFn opts .greeting buf =
            (Phase.awaitingRequest, methodOut NO_AUTHENTICATION_REQUIRED))
      ∧ (BASIC_AUTHENTICATION ∉ buf.drop 2 →
          NO_AUTHENTICATION_REQUIRED ∉ buf.drop 2 →
          stepFn opts .greeting buf =
            (Phase.closed, endOut NO_ACCEPTABLE_METHODS)))
  ∧ (∀ w ∈ (stepFn opts .greeting buf).2.writes,
        (stepFn opts .greeting buf).2.endedSocket = false →
          w.get? 1 = some NO_AUTHENTICATION_REQUIRED ∨
          w.get? 1 = some BASIC_AUTHENTICATION) := by
  have hstep : stepFn opts .greeting buf = methodSelection opts (buf.drop 2) := by
    simp only [stepFn, handshakeStep, if_pos hwf]
  refine ⟨?_, ?_, ?_⟩
  · intro f hf
    constructor
    · intro hmem
      rw [hstep]; unfold methodSelection; rw [hf]
      simp [hmem]
    · intro hmem
      rw [hstep]; unfold methodSelection; rw [hf]
      simp [hmem]
  · intro hf
    refine ⟨?_, ?_, ?_⟩
    · intro hmem
      rw [hstep]; unfold methodSelection; rw [hf]
      simp [hmem]
    · intro hmem hmem0
      rw [hstep]; unfold methodSelection; rw [hf]
      simp [hmem, hmem0]
    · intro hmem hmem0
      rw [hstep]; unfold methodSelection; rw [hf]
      simp [hmem, hmem0]
  · rw [hstep]
    unfold methodSelection
    rcases opts.authenticate <;> dsimp <;> (repeat' split) <;>
      simp [methodOut, endOut, Out.empty, NO_AUTHENTICATION_REQUIRED,
        BASIC_AUTHENTICATION, RFC_1928_VERSION]

/-- Witness for the amended Claim C4 at the greeting [5, 1, 2] on a
server with an authenticate callback configured. -/
theorem method_selection_amended_witness :
    (([5, 1, 2] : Buffer).get? 0 = some RFC_1928_VERSION ∧
      ([5, 1, 2] : Buffer).get? 1 = some (([5, 1, 2] : Buffer).length - 2))
  ∧ stepFn optsAuthReject .greeting [5, 1, 2] =
      (Phase.awaitingAuth, methodOut BASIC_AUTHENTICATION) :=
  ⟨by decide,
   (((method_selection_amended optsAuthReject [5, 1, 2] (by decide)).1)
      (fun _ _ => false) rfl).1 (by decide)⟩

/-- Claim C5 (refuted on the code; the claim matches RFC 1929 and the
code's own success path). When the authenticate callback rejects, the
session writes [5, 255] — the SOCKS version byte, not subnegotiation
version 1 — before closing, because the shared end() helper hardcodes
RFC_1928_VERSION into byte 0; the claim requires [1, 255]. -/
theorem auth_reject_reply_bytes :
    (stepFn optsAuthReject .awaitingAuth [1, 1, 97, 1, 98]).2.writes = [[5, 255]]
  ∧ (stepFn optsAuthReject .awaitingAuth [1, 1, 97, 1, 98]).1 = Phase.closed
  ∧ (stepFn optsAuthReject .awaitingAuth [1, 1, 97, 1, 98]).2.endedSocket = true
  ∧ (stepFn optsAuthReject .awaitingAuth [1, 1, 97, 1, 98]).2.events =
      [Event.authenticationError "a"]
  ∧ (stepFn optsAuthReject .awaitingAuth [1, 1, 97, 1, 98]).2.writes ≠
      [[RFC_1929_VERSION, 255]] := by decide

/-- Claim C6 (refuted on the code; the claim states the spec's
totality requirement). parseAuthRequest and parseConnectRequest throw
RangeError on truncated buffers, and since the session handlers install
no try/catch the exception escapes the data handler: no failure reply
is written and the session is left without an armed read. -/
theorem decoders_throw_on_truncated_input :
    parseAuthRequest ([] : Buffer) = Except.error "RangeError"
  ∧ parseAuthRequest [1] = Except.error "RangeError"
  ∧ (stepFn optsAuthAccept .awaitingAuth [1]).2.escaped = true
  ∧ (stepFn optsAuthAccept .awaitingAuth [1]).2.writes = []
  ∧ (stepFn optsAuthAccept .awaitingAuth [1]).1 = Phase.stalled
  ∧ parseConnectRequest [5] = Except.error "RangeError"
  ∧ (stepFn optsAuthAccept .awaitingRequest [5, 1, 0, 1]).2.escaped = true
  ∧ (stepFn optsAuthAccept .awaitingRequest [5, 1, 0, 1]).2.writes = [] := by
  refine ⟨rfl, rfl, by decide, by decide, by decide, rfl, by decide, by decide⟩

/-- Claim C7. For every server configuration and every nonempty
sequence of client data events, a session writes exactly one frame in
the greeting phase (the MethodReply, or the permitted 2-byte failure),
at most one frame in the auth phase, and at most one frame in the
request phase; the full write stream is exactly those three groups in
that order; and no single step ever writes more than one frame. -/
theorem session_reply_discipline (opts : Options) (frames : List Buffer)
    (h : frames ≠ []) :
    (writesAt Phase.greeting (runTrace opts Phase.greeting frames)).length = 1
  ∧ (writesAt Phase.awaitingAuth (runTrace opts Phase.greeting frames)).length ≤ 1
  ∧ (writesAt Phase.awaitingRequest (runTrace opts Phase.greeting frames)).length ≤ 1
  ∧ traceWrites (runTrace opts Phase.greeting frames) =
      writesAt Phase.greeting (runTrace opts Phase.greeting frames) ++
      writesAt Phase.awaitingAuth (runTrace opts Phase.greeting frames) ++
      writesAt Phase.awaitingRequest (runTrace opts Phase.greeting frames)
  ∧ ∀ r ∈ runTrace opts Phase.greeting frames, (r.2.writes).length ≤ 1 :=
  ⟨writesAt_greeting_length opts frames h,
   writesAt_le_one opts frames _ _ (by decide),
   writesAt_le_one opts frames _ _ (by decide),
   traceWrites_partition opts frames _,
   fun r hr => mem_trace_writes_le opts frames _ r hr⟩

/-- Witness for Claim C7 on a concrete two-frame no-auth CONNECT
session. -/
theorem session_reply_discipline_witness :
    ([[5, 1, 0], [5, 1, 0, 1, 127, 0, 0, 1, 0, 80]] : List Buffer) ≠ []
  ∧ ((writesAt Phase.greeting (runTrace optsNoAuth Phase.greeting
        [[5, 1, 0], [5, 1, 0, 1, 127, 0, 0, 1, 0, 80]])).length = 1
    ∧ (writesAt Phase.awaitingAuth (runTrace optsNoAuth Phase.greeting
        [[5, 1, 0], [5, 1, 0, 1, 127, 0, 0, 1, 0, 80]])).length ≤ 1
    ∧ (writesAt Phase.awaitingRequest (runTrace optsNoAuth Phase.greeting
        [[5, 1, 0], [5, 1, 0, 1, 127, 0, 0, 1, 0, 80]])).length ≤ 1
    ∧ traceWrites (runTrace optsNoAuth Phase.greeting
        [[5, 1, 0], [5, 1, 0, 1, 127, 0, 0, 1, 0, 80]]) =
        writesAt Phase.greeting (runTrace optsNoAuth Phase.greeting
          [[5, 1, 0], [5, 1, 0, 1, 127, 0, 0, 1, 0, 80]]) ++
        writesAt Phase.awaitingAuth (runTrace optsNoAuth Phase.greeting
          [[5, 1, 0], [5, 1, 0, 1, 127, 0, 0, 1, 0, 80]]) ++
        writesAt Phase.awaitingRequest (runTrace optsNoAuth Phase.greeting
          [[5, 1, 0], [5, 1, 0, 1, 127, 0, 0, 1, 0, 80]])
    ∧ ∀ r ∈ runTrace optsNoAuth Phase.greeting
        [[5, 1, 0], [5, 1, 0, 1, 127, 0, 0, 1, 0, 80]], (r.2.writes).length ≤ 1) :=
  ⟨by decide,
   session_reply_discipline optsNoAuth
     [[5, 1, 0], [5, 1, 0, 1, 127, 0, 0, 1, 0, 80]] (by decide)⟩

/-- Claim C8 counterexample. The greeting [5, 1, 0, 0] has version 5
and length 4 ≥ 2 + nmethods (= 3), so the claim requires decoding to
succeed and the session to proceed to method selection; the code
instead replies [5, 1] and closes, because server.ts requires the
buffer length to equal 2 + nmethods exactly. -/
theorem greeting_extra_bytes_counterexample :
    ([5, 1, 0, 0] : Buffer).get? 0 = some 5
  ∧ ([5, 1, 0, 0] : Buffer).get? 1 = some 1
  ∧ 2 + 1 ≤ ([5, 1, 0, 0] : Buffer).length
  ∧ stepFn optsNoAuth .greeting [5, 1, 0, 0] = (Phase.closed, endOut GENERAL_FAILURE)
  ∧ (stepFn optsNoAuth .greeting [5, 1, 0, 0]).2.writes = [[5, 1]]
  ∧ (stepFn optsNoAuth .greeting [5, 1, 0, 0]).2.endedSocket = true := by
  refine ⟨by decide, by decide, by decide, rfl, by decide, by decide⟩

/-- Claim C8, amended. For every greeting buffer with nmethods byte b
(the byte at offset 1): when the version byte is 5 and the length is
exactly 2 + b, the session proceeds to method selection over the bytes
from offset 2; when the version byte is 5 but the length differs
(shorter or longer), the session replies GENERAL_FAILURE and closes;
and when the version byte is not 5 the session likewise replies
GENERAL_FAILURE and closes, whatever the rest of the buffer holds. -/
theorem greeting_exact_length_amended (opts : Options) (buf : Buffer) (b : Nat)
    (hb : buf.get? 1 = some b) :
    (buf.get? 0 = some RFC_1928_VERSION → buf.length = 2 + b →
      stepFn opts .greeting buf = methodSelection opts (buf.drop 2))
  ∧ (buf.get? 0 = some RFC_1928_VERSION → buf.length ≠ 2 + b →
      stepFn opts .greeting buf = (Phase.closed, endOut GENERAL_FAILURE))
  ∧ (buf.get? 0 ≠ some RFC_1928_VERSION →
      stepFn opts .greeting buf = (Phase.closed, endOut GENERAL_FAILURE)) := by
  obtain ⟨h1, -⟩ := List.get?_eq_some.mp hb
  refine ⟨?_, ?_, ?_⟩
  · intro hv hlen
    have hc : buf.get? 1 = some (buf.length - 2) := by
      rw [hb]; congr 1; omega
    simp only [stepFn, handshakeStep, if_pos (And.intro hv hc)]
  · intro hv hlen
    have hne : ¬(buf.get? 0 = some RFC_1928_VERSION ∧
        buf.get? 1 = some (buf.length - 2)) := by
      rintro ⟨-, hc⟩
      rw [hb] at hc
      injection hc with hc
      omega
    simp only [stepFn, handshakeStep, if_neg hne]
  · intro hv
    have hne : ¬(buf.get? 0 = some RFC_1928_VERSION ∧
        buf.get? 1 = some (buf.length - 2)) := by
      rintro ⟨hc, -⟩
      exact hv hc
    simp only [stepFn, handshakeStep, if_neg hne]

/-- Witness for the amended Claim C8: the exact-length greeting
[5, 1, 0] proceeds to method selection, and the wrong-version greeting
[4, 1, 0] is rejected with GENERAL_FAILURE and closed. -/
theorem greeting_exact_length_witness :
    (([5, 1, 0] : Buffer).get? 0 = some RFC_1928_VERSION
      ∧ ([5, 1, 0] : Buffer).get? 1 = some 1
      ∧ ([5, 1, 0] : Buffer).length = 2 + 1)
  ∧ stepFn optsNoAuth .greeting [5, 1, 0] =
      methodSelection optsNoAuth (([5, 1, 0] : Buffer).drop 2)
  ∧ (([4, 1, 0] : Buffer).get? 1 = some 1
      ∧ ([4, 1, 0] : Buffer).get? 0 ≠ some RFC_1928_VERSION)
  ∧ stepFn optsNoAuth .greeting [4, 1, 0] =
      (Phase.closed, endOut GENERAL_FAILURE) :=
  ⟨by decide,
   (greeting_exact_length_amended optsNoAuth [5, 1, 0] 1 (by decide)).1
     (by decide) (by decide),
   by decide,
   (greeting_exact_length_amended optsNoAuth [4, 1, 0] 1 (by decide)).2.2
     (by decide)⟩

/-- Claim C9 (refuted on the code; the claim is the spec's mandate of
exactly one emission). On a session whose outbound factory resolves,
the factory is invoked and the success reply written, yet the
proxyConnect event is emitted zero times: server.ts contains no
proxyConnect emission at all. -/
theorem proxy_connect_not_emitted :
    (traceEvents (runTrace optsNoAuth Phase.greeting
        [[5, 1, 0], [5, 1, 0, 1, 127, 0, 0, 1, 0, 80]])).count Event.proxyConnect = 0
  ∧ (stepFn optsNoAuth .awaitingRequest [5, 1, 0, 1, 127, 0, 0, 1, 0, 80]).2.factoryCalls =
      [("127.0.0.1", 80)]
  ∧ (stepFn optsNoAuth .awaitingRequest [5, 1, 0, 1, 127, 0, 0, 1, 0, 80]).1 = Phase.relaying
  ∧ ((stepFn optsNoAuth .awaitingRequest [5, 1, 0, 1, 127, 0, 0, 1, 0, 80]).2.writes).length = 1
  ∧ (stepFn optsNoAuth .awaitingRequest [5, 1, 0, 1, 127, 0, 0, 1, 0, 80]).2.events = [] := by decide

/-- Claim C10. The activeSessions registry is append-only: over any
run the prior registry is a prefix of the resulting one (no code path
removes an entry); a step pushes the socket exactly when a ConnectRequest
parses in the request phase with version 5 (not at accept); and close()
invokes end() on every socket ever registered, including sockets of
sessions that terminated earlier. -/
theorem activeSessions_append_only (opts : Options) (sid : Nat) (p : Phase)
    (reg : List Nat) (frames : List Buffer) :
    (∃ t, runRegistry opts sid p reg frames = reg ++ t)
  ∧ (∀ buf, (stepFn opts p buf).2.pushed = true ↔
        p = Phase.awaitingRequest ∧
          ∃ request, parseConnectRequest buf = Except.ok request ∧
            request.ver = RFC_1928_VERSION)
  ∧ closeActions (runRegistry opts sid p reg frames) =
      (runRegistry opts sid p reg frames).map SocketAction.endSocket
  ∧ ∀ s ∈ runRegistry opts sid p reg frames,
      SocketAction.endSocket s ∈ closeActions (runRegistry opts sid p reg frames) :=
  ⟨runRegistry_extends opts sid frames p reg,
   fun buf => stepFn_pushed_iff opts p buf,
   rfl,
   fun _ hs => List.mem_map_of_mem _ hs⟩

end Socks
